import Mathlib

/-!
Verification of the CozyLife local-pull device connection engine and
device registry.  The definitions below are a shallow embedding of
`custom_components/hass_cozylife_local_pull/tcp_client.py`,
`coordinator.py` and `const.py`: pure functions mirror the Python
methods, object state is passed explicitly, `time.monotonic()` values
are rational parameters, and socket I/O outcomes are explicit inputs.
-/

namespace CozyLife

/-! ### Constants, from `const.py` -/

def MAX_RETRY_ATTEMPTS : Nat := 5

def INITIAL_RETRY_DELAY : ℚ := 1/2

def MAX_RETRY_DELAY : ℚ := 15

def RETRY_BACKOFF_FACTOR : ℚ := 3/2

def MAX_CONSECUTIVE_FAILURES : Nat := 3

def RECONNECT_MIN_INTERVAL : ℚ := 5

def RECONNECT_MAX_INTERVAL : ℚ := 300

def RECONNECT_BACKOFF_FACTOR : ℚ := 3/2

def DEVICE_STATE_ONLINE : String := "online"

def DEVICE_STATE_OFFLINE : String := "offline"

def DEVICE_STATE_CONNECTING : String := "connecting"

def DEVICE_STATE_UNKNOWN : String := "unknown"

/-! ### Device info, from the `DeviceInfo` dataclass in `tcp_client.py` -/

structure DeviceInfoData where
  device_id : String := ""
  device_name : String := ""
  pid : String := ""
  device_type_code : String := ""
  icon : String := ""
  device_model_name : String := ""
  dpid : List String := []
  deriving Repr, DecidableEq

/-! ### Client state, the fields of `TcpClient` relevant to the claims.
`connected` stands for `writer is not None and not writer.is_closing()`,
`receiveLoopActive` for `_receive_loop_task is not None and not done`. -/

structure ClientState where
  ip : String
  connected : Bool
  available : Bool
  lastError : Option String
  retryCount : Nat
  nextRetryTime : ℚ
  consecutiveFailures : Nat
  lastSuccessfulCommunication : ℚ
  lastActivity : ℚ
  deviceState : String
  receiveLoopActive : Bool
  isClosing : Bool
  reconnectDelay : ℚ
  readBuffer : String
  info : DeviceInfoData
  deriving Repr, DecidableEq

/-- `TcpClient.__init__`: the initial field values of a freshly built client. -/
def freshClient (ip : String) : ClientState :=
  { ip := ip
    connected := false
    available := false
    lastError := none
    retryCount := 0
    nextRetryTime := 0
    consecutiveFailures := 0
    lastSuccessfulCommunication := 0
    lastActivity := 0
    deviceState := DEVICE_STATE_UNKNOWN
    receiveLoopActive := false
    isClosing := false
    reconnectDelay := RECONNECT_MIN_INTERVAL
    readBuffer := ""
    info := {} }

/-- The exponential-backoff delay formula from `_handle_connection_failure`:
`min(INITIAL_RETRY_DELAY * RETRY_BACKOFF_FACTOR ** (retry_count - 1), MAX_RETRY_DELAY)`. -/
def backoffDelay (retryCount : Nat) : ℚ :=
  min (INITIAL_RETRY_DELAY * RETRY_BACKOFF_FACTOR ^ (retryCount - 1)) MAX_RETRY_DELAY

/-- `TcpClient._handle_connection_failure(error)` at monotonic time `now`. -/
def handleConnectionFailure (c : ClientState) (error : String) (now : ℚ) : ClientState :=
  let retryCount' := min (c.retryCount + 1) MAX_RETRY_ATTEMPTS
  let failures' := c.consecutiveFailures + 1
  { c with
    lastError := some error
    retryCount := retryCount'
    consecutiveFailures := failures'
    available := if MAX_CONSECUTIVE_FAILURES ≤ failures' then false else c.available
    nextRetryTime := now + backoffDelay retryCount' }

/-- `TcpClient._mark_communication_success()` at monotonic time `now`. -/
def markCommunicationSuccess (c : ClientState) (now : ℚ) : ClientState :=
  { c with
    available := true
    lastError := none
    consecutiveFailures := 0
    retryCount := 0
    nextRetryTime := 0
    lastSuccessfulCommunication := now
    lastActivity := now }

/-- `TcpClient._mark_communication_failure(error)` at monotonic time `now`. -/
def markCommunicationFailure (c : ClientState) (error : String) (now : ℚ) : ClientState :=
  let failures' := c.consecutiveFailures + 1
  { c with
    lastError := some error
    consecutiveFailures := failures'
    lastActivity := now
    available := if MAX_CONSECUTIVE_FAILURES ≤ failures' then false else c.available }

/-- `TcpClient._close_connection()`: drop reader/writer and clear the buffer
(availability is deliberately not touched there). -/
def closeConnection (c : ClientState) : ClientState :=
  { c with connected := false, readBuffer := "" }

/-- `TcpClient.disconnect()`: close the connection and reset retry/backoff
and failure counters.  The device-state field is not modified. -/
def disconnectClient (c : ClientState) : ClientState :=
  { closeConnection c with
    retryCount := 0
    nextRetryTime := 0
    consecutiveFailures := 0 }

/-- `TcpClient._set_device_state(new_state)` (the guard only affects logging). -/
def setDeviceState (c : ClientState) (s : String) : ClientState :=
  { c with deviceState := s }

/-- `TcpClient.stop_persistent_connection()`: set `_is_closing`, cancel the
receive-loop task, `disconnect()`, then transition to `offline`. -/
def stopPersistentConnection (c : ClientState) : ClientState :=
  setDeviceState
    (disconnectClient { c with isClosing := true, receiveLoopActive := false })
    DEVICE_STATE_OFFLINE

/-- `TcpClient.start_persistent_connection()`. -/
def startPersistentConnection (c : ClientState) : ClientState :=
  if c.isClosing then c
  else if c.receiveLoopActive then c
  else { c with receiveLoopActive := true }

/-- The backoff gate at the top of `_connect_internal`: a (non-forced)
attempt proceeds only when `now` has reached `_next_retry_time`. -/
def connectGatePasses (c : ClientState) (now : ℚ) : Bool :=
  !(now < c.nextRetryTime)

/-- The prologue of `connect(force)`: `force=True` resets the backoff timer
before `_connect_internal` runs. -/
def connectEntry (c : ClientState) (force : Bool) : ClientState :=
  if force then { c with nextRetryTime := 0 } else c

/-- `TcpClient.update_ip(new_ip)`: returns whether the IP changed, resetting
the retry state on a change. -/
def updateIp (c : ClientState) (newIp : String) : Bool × ClientState :=
  if newIp = c.ip then (false, c)
  else
    (true,
      { c with
        ip := newIp
        retryCount := 0
        nextRetryTime := 0
        reconnectDelay := RECONNECT_MIN_INTERVAL })

/-- `TcpClient.reconnect_with_new_ip(new_ip)` up to the point where the
socket I/O of `connect(force=True)` begins: `update_ip`, close the existing
connection, and clear the pending backoff.  The outcome of the subsequent
connection attempt is external I/O and is not modeled here; it does not
change the identity or IP fields. -/
def reconnectWithNewIp (c : ClientState) (newIp : String) : ClientState :=
  connectEntry (closeConnection (updateIp c newIp).2) true

/-! ### Failure sequences, for the backoff and hysteresis claims -/

/-- A sequence of consecutive connection failures with no intervening
success: each element is the error string and the monotonic time of the
failure. -/
def runConnectionFailures (c : ClientState) : List (String × ℚ) → ClientState
  | [] => c
  | (e, t) :: rest => runConnectionFailures (handleConnectionFailure c e t) rest

/-- A sequence of consecutive communication failures with no intervening
success. -/
def runCommunicationFailures (c : ClientState) : List (String × ℚ) → ClientState
  | [] => c
  | (e, t) :: rest => runCommunicationFailures (markCommunicationFailure c e t) rest

/-- The delay the code computes after the `k`-th consecutive failure from a
fresh retry state: the retry counter saturates at `MAX_RETRY_ATTEMPTS`. -/
def delayAfter (k : Nat) : ℚ :=
  backoffDelay (min k MAX_RETRY_ATTEMPTS)

/-! ### The wire protocol and `_parse_json_lines`

Devices send newline-delimited JSON objects shaped
`\x7b"pv":0,"cmd":<int>,"sn":<string>,"msg":<object>\x7d`.  A receive
buffer is modeled as the list of its lines, each line carrying the
outcome of `json.loads` on it: either a well-formed response object
(whose line text is its canonical rendering, as produced by the device's
`json.dumps(..., separators=(",",":"))`) or junk text on which
`json.loads` fails or does not yield a dict. -/

/-- One JSON state value: `"<id>": <int>` inside a `data` object. -/
def renderKV (kv : String × Int) : String :=
  "\"" ++ kv.1 ++ "\":" ++ toString kv.2

/-- Render a JSON object of data-point values, `\x7b"1":255,"4":800\x7d`. -/
def renderData (kvs : List (String × Int)) : String :=
  "\x7b" ++ String.intercalate "," (kvs.map renderKV) ++ "\x7d"

/-- Render a JSON array of integers. -/
def renderAttr (attr : List Int) : String :=
  "[" ++ String.intercalate "," (attr.map toString) ++ "]"

/-- A well-formed response object: correlation id, command, and the
optional `attr` and `data` members of its `msg` object. -/
structure WireResp where
  sn : String
  cmd : Nat
  attr : Option (List Int)
  data : Option (List (String × Int))
  deriving Repr, DecidableEq

/-- The `msg` object text of a response. -/
def renderMsg (r : WireResp) : String :=
  match r.attr, r.data with
  | none, none => "\x7b\x7d"
  | some a, none => "\x7b\"attr\":" ++ renderAttr a ++ "\x7d"
  | none, some d => "\x7b\"data\":" ++ renderData d ++ "\x7d"
  | some a, some d =>
      "\x7b\"attr\":" ++ renderAttr a ++ ",\"data\":" ++ renderData d ++ "\x7d"

/-- The canonical line text of a response, mirroring the message shape
built by `_get_package` / sent by devices. -/
def lineText (r : WireResp) : String :=
  "\x7b\"pv\":0,\"cmd\":" ++ toString r.cmd ++ ",\"sn\":\"" ++ r.sn
    ++ "\",\"msg\":" ++ renderMsg r ++ "\x7d"

/-- A line of a receive buffer together with its `json.loads` outcome. -/
inductive BufLine
  | valid (r : WireResp)
  | junk (s : String)
  deriving Repr, DecidableEq

/-- The raw text of a buffer line. -/
def BufLine.text : BufLine → String
  | .valid r => lineText r
  | .junk s => s

/-- Python's `needle in haystack` substring test, on character lists. -/
def listContainsSub (needle : List Char) : List Char → Bool
  | [] => needle.isEmpty
  | c :: t => needle.isPrefixOf (c :: t) || listContainsSub needle t

/-- Python's `needle in haystack` substring test on strings. -/
def strContainsSub (haystack needle : String) : Bool :=
  listContainsSub needle.data haystack.data

/-- Python's `line.strip()`: drop whitespace from both ends. -/
def strStrip (s : String) : String :=
  String.mk
    (((s.data.dropWhile Char.isWhitespace).reverse.dropWhile Char.isWhitespace).reverse)

/-- `TcpClient._parse_json_lines(data, target_sn)` over the split lines of
the buffer: skip blank lines, skip lines not containing `target_sn` as a
substring, skip lines `json.loads` rejects, and return the first parsed
dict found.  Note the code never compares the parsed object's `sn` field
with `target_sn`. -/
def parseJsonLines (lines : List BufLine) (targetSn : String) : Option WireResp :=
  match lines with
  | [] => none
  | l :: rest =>
      if strStrip (BufLine.text l) = "" then parseJsonLines rest targetSn
      else if !(strContainsSub (BufLine.text l) targetSn) then parseJsonLines rest targetSn
      else
        match l with
        | .valid r => some r
        | .junk _ => parseJsonLines rest targetSn

/-- `isinstance(msg["attr"], list)` capture in `_send_receiver_internal`:
populate `dpid` from a response's `attr` only when `dpid` is empty. -/
def captureAttr (c : ClientState) (attr : List Int) : ClientState :=
  if c.info.dpid = [] then
    { c with info := { c.info with dpid := attr.map (fun x => toString x) } }
  else c

/-- The tail of `_send_receiver_internal`'s success branch, applied to the
response object `_parse_json_lines` returned: capture `attr` into `dpid`
if needed, then on a `data` member mark the communication successful and
return the data, otherwise return the empty dict. -/
def handleResponsePayload (c : ClientState) (r : WireResp) (now : ℚ) :
    Option (List (String × Int)) × ClientState :=
  let c1 := match r.attr with
    | some attr => captureAttr c attr
    | none => c
  match r.data with
  | none => (none, c1)
  | some d => (some d, markCommunicationSuccess c1 now)

/-! ### `control` and `_only_send` -/

/-- Outcome of a bounded read on the socket. -/
inductive ReadOutcome
  | data (lines : List BufLine)
  | empty
  | timeout
  | ioError (e : String)
  deriving Repr, DecidableEq

/-- `TcpClient.control(payload)` from its first successful write onwards
(the reconnect-and-retry prologue re-runs the same write).  `sn` is the
correlation id `_get_package` stored in `self._sn`; `ack` is the outcome
of the acknowledgment read; in persistent mode no read happens and `ack`
is ignored.  Returns the boolean result and the new state.  Note that a
non-empty read counts as success whether or not `sn` is found in it. -/
def controlAfterSend (c : ClientState) (sn : String) (ack : ReadOutcome) (now : ℚ) :
    Bool × ClientState :=
  if c.receiveLoopActive then
    (true, { c with lastActivity := now })
  else
    match ack with
    | .data lines =>
        match parseJsonLines lines sn with
        | some _ => (true, markCommunicationSuccess c now)
        | none => (true, markCommunicationSuccess c now)
    | .empty =>
        (false, closeConnection (markCommunicationFailure c "Empty response" now))
    | .timeout => (true, { c with lastActivity := now })
    | .ioError e =>
        (false, closeConnection (markCommunicationFailure c e now))

/-- `TcpClient._only_send(cmd, payload)` with a writer present: refresh the
activity timestamp on success, mark a communication failure otherwise. -/
def onlySendResult (c : ClientState) (sendOk : Bool) (error : String) (now : ℚ) :
    ClientState :=
  if sendOk then { c with lastActivity := now }
  else markCommunicationFailure c error now

/-! ### Dictionaries

Python `dict`s are modeled as association lists with unique keys:
`insertA` is `d[k] = v` (replace or append) and `eraseA` is
`d.pop(k, None)`. -/

/-- `d.get(k)` lookup. -/
def lookupA {α β : Type} [DecidableEq α] (l : List (α × β)) (k : α) : Option β :=
  match l with
  | [] => none
  | (k', v) :: rest => if k' = k then some v else lookupA rest k

/-- `d[k] = v`: replace the binding if present, append otherwise. -/
def insertA {α β : Type} [DecidableEq α] (l : List (α × β)) (k : α) (v : β) :
    List (α × β) :=
  match l with
  | [] => [(k, v)]
  | (k', v') :: rest =>
      if k' = k then (k, v) :: rest else (k', v') :: insertA rest k v

/-- `d.pop(k, None)`: remove the binding for `k` if present. -/
def eraseA {α β : Type} [DecidableEq α] (l : List (α × β)) (k : α) :
    List (α × β) :=
  match l with
  | [] => []
  | (k', v') :: rest => if k' = k then rest else (k', v') :: eraseA rest k

/-- The keys of an association list. -/
def keysA {α β : Type} (l : List (α × β)) : List α :=
  l.map Prod.fst

/-! ### The device registry, from `coordinator.py`

Client objects live in a store indexed by handles (`Nat`), so that two
registry fields referring to the same Python object are modeled by the
same handle.  `DeviceCoordinator._devices` maps identity to entry and
`_ip_to_device` maps IP to identity. -/

/-- `DeviceEntry` from `coordinator.py`; `client` is the handle of the
owning client object. -/
structure EntryM where
  device_id : String
  ip : String
  client : Nat
  device_type : String
  offlineSince : Option ℚ
  lastRediscoveryAttempt : ℚ
  deriving Repr, DecidableEq

/-- The coordinator's registry state plus the store of client objects.
`nextHandle` is a bound on allocated handles. -/
structure RegState where
  devices : List (String × EntryM)
  ipToDevice : List (String × String)
  clients : List (Nat × ClientState)
  running : Bool
  deriving Repr, DecidableEq

/-- Apply `f` to the client object at handle `h`. -/
def mapClient (store : List (Nat × ClientState)) (h : Nat)
    (f : ClientState → ClientState) : List (Nat × ClientState) :=
  match lookupA store h with
  | some cl => insertA store h (f cl)
  | none => store

/-- `DeviceCoordinator.add_device(client)`, the client given by handle `h`.
Returns whether the device was newly added. -/
def addDevice (s : RegState) (h : Nat) : Bool × RegState :=
  match lookupA s.clients h with
  | none => (false, s)
  | some cl =>
      if cl.info.device_id = "" then (false, s)
      else
        let did := cl.info.device_id
        match lookupA s.devices did with
        | some entry =>
            if entry.ip ≠ cl.ip then
              (false,
                { s with
                  devices := insertA s.devices did { entry with ip := cl.ip }
                  ipToDevice := insertA (eraseA s.ipToDevice entry.ip) cl.ip did
                  clients := mapClient s.clients entry.client
                    (fun c => (updateIp c cl.ip).2) })
            else (false, s)
        | none =>
            let entry : EntryM :=
              { device_id := did
                ip := cl.ip
                client := h
                device_type := cl.info.device_type_code
                offlineSince := none
                lastRediscoveryAttempt := 0 }
            (true,
              { s with
                devices := insertA s.devices did entry
                ipToDevice := insertA s.ipToDevice cl.ip did
                clients :=
                  if s.running then mapClient s.clients h startPersistentConnection
                  else s.clients })

/-- `DeviceCoordinator.remove_device(device_id)`. -/
def removeDevice (s : RegState) (did : String) : Bool × RegState :=
  match lookupA s.devices did with
  | none => (false, s)
  | some entry =>
      (true,
        { s with
          devices := eraseA s.devices did
          ipToDevice := eraseA s.ipToDevice entry.ip
          clients := mapClient s.clients entry.client stopPersistentConnection })

/-- The known-device branch of `DeviceCoordinator._check_new_ips` for one
discovered IP `ip`: the temporary probing client at handle `tempH`
identified the already-known identity `did`, so the entry is re-pointed at
`ip`, the existing client object reconnects with the new IP, and the
temporary client is disconnected and dropped. -/
def checkNewIpsMove (s : RegState) (did ip : String) (tempH : Nat) : RegState :=
  match lookupA s.devices did with
  | none => s
  | some entry =>
      { s with
        devices := insertA s.devices did { entry with ip := ip }
        ipToDevice := insertA (eraseA s.ipToDevice entry.ip) ip did
        clients :=
          mapClient
            (mapClient s.clients entry.client (fun c => reconnectWithNewIp c ip))
            tempH disconnectClient }

/-- The found branch of `DeviceCoordinator._rediscover_device(device_id)`:
identical to the periodic-path move, but also clears the offline
bookkeeping of the entry. -/
def rediscoverDeviceFound (s : RegState) (did ip : String) (tempH : Nat) : RegState :=
  match lookupA s.devices did with
  | none => s
  | some entry =>
      { s with
        devices := insertA s.devices did { entry with ip := ip, offlineSince := none }
        ipToDevice := insertA (eraseA s.ipToDevice entry.ip) ip did
        clients :=
          mapClient
            (mapClient s.clients entry.client (fun c => reconnectWithNewIp c ip))
            tempH disconnectClient }

/-- `DeviceCoordinator.stop()`: stop every registered client's persistent
connection (the timer cancellations have no registry-visible state). -/
def coordinatorStop (s : RegState) : RegState :=
  { s with
    running := false
    clients := s.clients.map (fun p => (p.1, stopPersistentConnection p.2)) }

/-- One registry operation, for reasoning over arbitrary interleavings. -/
inductive RegOp
  | add (h : Nat)
  | remove (did : String)
  | move (did ip : String) (tempH : Nat)
  | rediscover (did ip : String) (tempH : Nat)
  deriving Repr, DecidableEq

/-- Apply one registry operation. -/
def applyRegOp (s : RegState) : RegOp → RegState
  | .add h => (addDevice s h).2
  | .remove did => (removeDevice s did).2
  | .move did ip tempH => checkNewIpsMove s did ip tempH
  | .rediscover did ip tempH => rediscoverDeviceFound s did ip tempH

/-- Apply a sequence of registry operations in order. -/
def applyRegOps (s : RegState) : List RegOp → RegState
  | [] => s
  | op :: rest => applyRegOps (applyRegOp s op) rest

/-- The registry invariant: unique identities (I1), unique IPs (I2), and
every IP mapping points to a live entry whose IP field agrees. -/
def RegInv (s : RegState) : Prop :=
  (keysA s.devices).Nodup ∧ (keysA s.ipToDevice).Nodup ∧
    ∀ ip did, lookupA s.ipToDevice ip = some did →
      ∃ e, lookupA s.devices did = some e ∧ e.ip = ip

/-! ### `_device_info`'s metadata lookup, from `tcp_client.py`

`async_get_pid_list` returns a list of category items, each carrying
model records; a model record matching the device's `pid` supplies icon,
model name and dpid list. -/

/-- One model record of the pid list (`m` entries: `pid`, `i`, `n`, `dpid`). -/
structure PidModel where
  pid : String
  i : String
  n : String
  dpid : List Int
  deriving Repr, DecidableEq

/-- One category item of the pid list (`c` plus its model records). -/
structure PidItem where
  c : String
  m : List PidModel
  deriving Repr, DecidableEq

/-- The nested search of `_device_info`: first item owning a model whose
`pid` matches, together with that model. -/
def findPidModel (pid : String) : List PidItem → Option (PidItem × PidModel)
  | [] => none
  | item :: rest =>
      match item.m.find? (fun mdl => mdl.pid = pid) with
      | some mdl => some (item, mdl)
      | none => findPidModel pid rest

/-- `TcpClient._device_info` from the decoded handshake response onwards:
`did`, `name`, `dtp`, `pid` are the members of the response's `msg`
object (`none` when absent), `pidList` the metadata lookup result.
Mirrors lines 553-605 of `tcp_client.py`: missing `did` aborts, `dtp`
(when truthy) fixes the type code, a matching pid model overwrites icon,
model name and dpid, and an absent type code is inferred from dpid. -/
def deviceInfoApply (info : DeviceInfoData) (did name dtp pidF : Option String)
    (pidList : List PidItem) : DeviceInfoData :=
  match did with
  | none => info
  | some d =>
      let i1 := { info with device_id := d, device_name := name.getD "" }
      let i2 := match dtp with
        | some t => if t ≠ "" then { i1 with device_type_code := t } else i1
        | none => i1
      let i3 := match pidF with
        | none => i2
        | some p =>
            let i2p := { i2 with pid := p }
            match findPidModel p pidList with
            | some (item, mdl) =>
                { i2p with
                  icon := mdl.i
                  device_model_name := mdl.n
                  dpid := mdl.dpid.map (fun x => toString x)
                  device_type_code :=
                    if i2p.device_type_code = "" then item.c
                    else i2p.device_type_code }
            | none => i2p
      if i3.device_type_code = "" && !i3.dpid.isEmpty then
        if ["3", "4", "5", "6"].any (fun d0 => i3.dpid.contains d0) then
          { i3 with device_type_code := "01" }
        else
          { i3 with device_type_code := "00" }
      else i3

/-! ### The cached-state copy discipline, from `query` and `last_state`

Python dictionaries are heap objects; `_last_state.copy()` allocates a
fresh one.  The heap is a store of dictionaries indexed by references. -/

/-- A heap of state dictionaries; `next` is the next fresh reference. -/
structure DictHeap where
  store : List (Nat × List (String × Int))
  next : Nat
  deriving Repr, DecidableEq

/-- Allocate a fresh dictionary holding `d`. -/
def allocDict (h : DictHeap) (d : List (String × Int)) : DictHeap × Nat :=
  ({ store := insertA h.store h.next d, next := h.next + 1 }, h.next)

/-- `d[k] = v` on the dictionary behind reference `r`. -/
def dictSet (h : DictHeap) (r : Nat) (k : String) (v : Int) : DictHeap :=
  match lookupA h.store r with
  | some d => { h with store := insertA h.store r (insertA d k v) }
  | none => h

/-- The cached-state fast path of `TcpClient.query()`: when the receive
loop is active and the cache behind `lastRef` is non-empty, return a
fresh copy of it; otherwise fall through (`none`) to the direct query. -/
def queryCachedPath (h : DictHeap) (lastRef : Nat) (receiveLoopActive : Bool) :
    Option (DictHeap × Nat) :=
  if receiveLoopActive then
    match lookupA h.store lastRef with
    | some d => if d ≠ [] then some (allocDict h d) else none
    | none => none
  else none

/-- The `last_state` property: `self._last_state.copy()`. -/
def lastStateProp (h : DictHeap) (lastRef : Nat) : DictHeap × Nat :=
  allocDict h ((lookupA h.store lastRef).getD [])

/-! ### Concrete fixtures used by witnesses and counterexamples -/

/-- A response for correlation id `"A"` carrying the A payload. -/
def respA : WireResp :=
  { sn := "A", cmd := 2, attr := some [1, 2], data := some [("1", 255), ("4", 800)] }

/-- A response for correlation id `"B"` carrying the B payload. -/
def respB : WireResp :=
  { sn := "B", cmd := 2, attr := some [1], data := some [("1", 0)] }

/-- A response for correlation id `"12"`. -/
def resp12 : WireResp :=
  { sn := "12", cmd := 2, attr := none, data := some [("1", 1)] }

/-- A response for correlation id `"123"`, whose line text contains `"12"`. -/
def resp123 : WireResp :=
  { sn := "123", cmd := 2, attr := none, data := some [("1", 2)] }

/-- A connected client in persistent mode that has seen two failures. -/
def persistentClientExample : ClientState :=
  { freshClient "10.0.0.5" with
    connected := true
    receiveLoopActive := true
    consecutiveFailures := 2
    retryCount := 2 }

/-- A client whose dpid list has already been populated. -/
def clientWithDpid : ClientState :=
  { freshClient "10.0.0.5" with info := { dpid := ["1"] } }

/-- A connected client that has completed its handshake as `dev1`. -/
def clientDev1 : ClientState :=
  { freshClient "10.0.0.5" with
    connected := true
    info := { device_id := "dev1", device_type_code := "01",
              dpid := ["1", "2", "3", "4", "5", "6"] } }

/-- A registry holding no devices but owning the `dev1` client object. -/
def regExampleStart : RegState :=
  { devices := [], ipToDevice := [], clients := [(0, clientDev1)], running := false }

/-- The registry entry for `dev1` at its original IP, currently offline. -/
def entryDev1 : EntryM :=
  { device_id := "dev1", ip := "10.0.0.5", client := 0, device_type := "01",
    offlineSince := some 50, lastRediscoveryAttempt := 0 }

/-- A temporary probing client that found `dev1` at its new IP. -/
def tempProbeClient : ClientState :=
  { freshClient "10.0.0.9" with
    connected := true
    info := { device_id := "dev1", device_type_code := "01" } }

/-- A registry with `dev1` registered at `10.0.0.5`, its client at handle 0,
and a temporary probing client at handle 1. -/
def regMoveExample : RegState :=
  { devices := [("dev1", entryDev1)]
    ipToDevice := [("10.0.0.5", "dev1")]
    clients := [(0, clientDev1), (1, tempProbeClient)]
    running := true }

/-! ## Association-list dictionary lemmas -/

theorem keysA_nil {α β : Type} : keysA ([] : List (α × β)) = [] := rfl

theorem keysA_cons {α β : Type} (a : α) (b : β) (l : List (α × β)) :
    keysA ((a, b) :: l) = a :: keysA l := rfl

theorem lookupA_insertA_self {α β : Type} [DecidableEq α] (l : List (α × β)) (k : α) (v : β) :
    lookupA (insertA l k v) k = some v := by
  induction l with
  | nil => simp [insertA, lookupA]
  | cons p rest ih =>
      obtain ⟨k', v'⟩ := p
      by_cases h : k' = k
      · subst h
        simp [insertA, lookupA]
      · simp [insertA, h, lookupA, ih]

theorem lookupA_insertA_ne {α β : Type} [DecidableEq α] (l : List (α × β)) (k q : α) (v : β)
    (h : q ≠ k) : lookupA (insertA l k v) q = lookupA l q := by
  have hk : k ≠ q := Ne.symm h
  induction l with
  | nil => simp [insertA, lookupA, hk]
  | cons p rest ih =>
      obtain ⟨k', v'⟩ := p
      by_cases hkk : k' = k
      · subst hkk
        simp [insertA, lookupA, hk]
      · by_cases hq : k' = q
        · subst hq
          simp [insertA, hkk, lookupA]
        · simp [insertA, hkk, lookupA, hq, ih]

theorem lookupA_eraseA_ne {α β : Type} [DecidableEq α] (l : List (α × β)) (k q : α)
    (h : q ≠ k) : lookupA (eraseA l k) q = lookupA l q := by
  have hk : k ≠ q := Ne.symm h
  induction l with
  | nil => simp [eraseA]
  | cons p rest ih =>
      obtain ⟨k', v'⟩ := p
      by_cases hkk : k' = k
      · subst hkk
        simp [eraseA, lookupA, hk]
      · by_cases hq : k' = q
        · subst hq
          simp [eraseA, hkk, lookupA]
        · simp [eraseA, hkk, lookupA, hq, ih]

theorem lookupA_eq_none_of_not_mem {α β : Type} [DecidableEq α] (l : List (α × β)) (k : α)
    (h : k ∉ keysA l) : lookupA l k = none := by
  induction l with
  | nil => simp [lookupA]
  | cons p rest ih =>
      obtain ⟨k', v'⟩ := p
      rw [keysA_cons, List.mem_cons] at h
      push_neg at h
      rw [lookupA, if_neg (fun e => h.1 e.symm)]
      exact ih h.2

theorem lookupA_eraseA_self {α β : Type} [DecidableEq α] (l : List (α × β)) (k : α)
    (h : (keysA l).Nodup) : lookupA (eraseA l k) k = none := by
  induction l with
  | nil => simp [eraseA, lookupA]
  | cons p rest ih =>
      obtain ⟨k', v'⟩ := p
      rw [keysA_cons, List.nodup_cons] at h
      by_cases hk : k' = k
      · subst hk
        rw [eraseA, if_pos rfl]
        exact lookupA_eq_none_of_not_mem rest k' h.1
      · rw [eraseA, if_neg hk, lookupA, if_neg hk]
        exact ih h.2

theorem mem_keysA_insertA {α β : Type} [DecidableEq α] (l : List (α × β)) (k a : α) (v : β)
    (h : a ∈ keysA (insertA l k v)) : a = k ∨ a ∈ keysA l := by
  induction l with
  | nil =>
      simp only [insertA, keysA_cons, keysA_nil, List.mem_singleton] at h
      exact Or.inl h
  | cons p rest ih =>
      obtain ⟨k', v'⟩ := p
      by_cases hk : k' = k
      · subst hk
        rw [insertA, if_pos rfl, keysA_cons, List.mem_cons] at h
        rw [keysA_cons, List.mem_cons]
        tauto
      · rw [insertA, if_neg hk, keysA_cons, List.mem_cons] at h
        rw [keysA_cons, List.mem_cons]
        rcases h with h | h
        · tauto
        · rcases ih h with h' | h' <;> tauto

theorem keysA_insertA_nodup {α β : Type} [DecidableEq α] (l : List (α × β)) (k : α) (v : β)
    (h : (keysA l).Nodup) : (keysA (insertA l k v)).Nodup := by
  induction l with
  | nil => simp [insertA, keysA_cons, keysA_nil]
  | cons p rest ih =>
      obtain ⟨k', v'⟩ := p
      rw [keysA_cons, List.nodup_cons] at h
      by_cases hk : k' = k
      · subst hk
        rw [insertA, if_pos rfl, keysA_cons, List.nodup_cons]
        exact h
      · rw [insertA, if_neg hk, keysA_cons, List.nodup_cons]
        refine ⟨fun hmem => ?_, ih h.2⟩
        rcases mem_keysA_insertA rest k k' v hmem with h' | h'
        · exact hk h'
        · exact h.1 h'

theorem mem_keysA_eraseA {α β : Type} [DecidableEq α] (l : List (α × β)) (k a : α)
    (h : a ∈ keysA (eraseA l k)) : a ∈ keysA l := by
  induction l with
  | nil => simpa [eraseA] using h
  | cons p rest ih =>
      obtain ⟨k', v'⟩ := p
      rw [keysA_cons, List.mem_cons]
      by_cases hk : k' = k
      · subst hk
        rw [eraseA, if_pos rfl] at h
        tauto
      · rw [eraseA, if_neg hk, keysA_cons, List.mem_cons] at h
        rcases h with h | h
        · tauto
        · exact Or.inr (ih h)

theorem keysA_eraseA_nodup {α β : Type} [DecidableEq α] (l : List (α × β)) (k : α)
    (h : (keysA l).Nodup) : (keysA (eraseA l k)).Nodup := by
  induction l with
  | nil => simp [eraseA, keysA_nil]
  | cons p rest ih =>
      obtain ⟨k', v'⟩ := p
      rw [keysA_cons, List.nodup_cons] at h
      by_cases hk : k' = k
      · subst hk
        rw [eraseA, if_pos rfl]
        exact h.2
      · rw [eraseA, if_neg hk, keysA_cons, List.nodup_cons]
        exact ⟨fun hmem => h.1 (mem_keysA_eraseA rest k k' hmem), ih h.2⟩

theorem lookupA_mapClient_self (store : List (Nat × ClientState)) (h : Nat)
    (f : ClientState → ClientState) (cl : ClientState)
    (hl : lookupA store h = some cl) :
    lookupA (mapClient store h f) h = some (f cl) := by
  simp only [mapClient, hl]
  exact lookupA_insertA_self store h (f cl)

theorem lookupA_mapClient_ne (store : List (Nat × ClientState)) (h q : Nat)
    (f : ClientState → ClientState) (hq : q ≠ h) :
    lookupA (mapClient store h f) q = lookupA store q := by
  simp only [mapClient]
  cases hl : lookupA store h with
  | none => rfl
  | some cl => exact lookupA_insertA_ne store h q (f cl) hq

/-! ## Backoff and hysteresis lemmas -/

theorem runConnectionFailures_counters (fs : List (String × ℚ)) :
    ∀ (c : ClientState) (j : Nat), c.retryCount = min j MAX_RETRY_ATTEMPTS →
      c.consecutiveFailures = j →
      (runConnectionFailures c fs).retryCount = min (j + fs.length) MAX_RETRY_ATTEMPTS ∧
      (runConnectionFailures c fs).consecutiveFailures = j + fs.length := by
  induction fs with
  | nil => intro c j h1 h2; simpa [runConnectionFailures] using ⟨h1, h2⟩
  | cons p rest ih =>
      intro c j h1 h2
      obtain ⟨e, t⟩ := p
      have hstep : (handleConnectionFailure c e t).retryCount
          = min (j + 1) MAX_RETRY_ATTEMPTS := by
        simp only [handleConnectionFailure, h1, MAX_RETRY_ATTEMPTS]
        omega
      have hstep2 : (handleConnectionFailure c e t).consecutiveFailures = j + 1 := by
        simp [handleConnectionFailure, h2]
      have := ih (handleConnectionFailure c e t) (j + 1) hstep hstep2
      simpa [runConnectionFailures, Nat.add_assoc, Nat.add_comm, Nat.add_left_comm] using this

theorem available_after_failures (fs : List (String × ℚ)) :
    ∀ (c : ClientState) (j : Nat), c.consecutiveFailures = j →
      c.available = decide (j < MAX_CONSECUTIVE_FAILURES) →
      ((runCommunicationFailures c fs).available
          = decide (j + fs.length < MAX_CONSECUTIVE_FAILURES)) ∧
      ((runConnectionFailures c fs).available
          = decide (j + fs.length < MAX_CONSECUTIVE_FAILURES)) := by
  induction fs with
  | nil => intro c j h1 h2; simpa [runCommunicationFailures, runConnectionFailures, h1] using h2
  | cons p rest ih =>
      intro c j h1 h2
      obtain ⟨e, t⟩ := p
      have havail : ∀ b : Bool,
          b = decide (j + 1 < MAX_CONSECUTIVE_FAILURES) →
          (if MAX_CONSECUTIVE_FAILURES ≤ j + 1 then false else c.available) = b := by
        intro b hb
        by_cases hth : MAX_CONSECUTIVE_FAILURES ≤ j + 1
        · rw [if_pos hth, hb]
          simp [MAX_CONSECUTIVE_FAILURES] at hth ⊢
          omega
        · rw [if_neg hth, h2, hb]
          simp [MAX_CONSECUTIVE_FAILURES] at hth ⊢
          omega
      constructor
      · have hcf : (markCommunicationFailure c e t).consecutiveFailures = j + 1 := by
          simp [markCommunicationFailure, h1]
        have hav : (markCommunicationFailure c e t).available
            = decide (j + 1 < MAX_CONSECUTIVE_FAILURES) := by
          simp only [markCommunicationFailure, h1]
          exact havail _ rfl
        have := (ih (markCommunicationFailure c e t) (j + 1) hcf hav).1
        simpa [runCommunicationFailures, Nat.add_assoc, Nat.add_comm, Nat.add_left_comm]
          using this
      · have hcf : (handleConnectionFailure c e t).consecutiveFailures = j + 1 := by
          simp [handleConnectionFailure, h1]
        have hav : (handleConnectionFailure c e t).available
            = decide (j + 1 < MAX_CONSECUTIVE_FAILURES) := by
          simp only [handleConnectionFailure, h1]
          exact havail _ rfl
        have := (ih (handleConnectionFailure c e t) (j + 1) hcf hav).2
        simpa [runConnectionFailures, Nat.add_assoc, Nat.add_comm, Nat.add_left_comm]
          using this

/-! ## Claim C3: backoff policy -/

/-- Claim C3 (amended): each connection failure increments the retry counter
up to the cap `MAX_RETRY_ATTEMPTS`, so after the `k`-th consecutive failure
the computed delay is `min(INITIAL_RETRY_DELAY *
RETRY_BACKOFF_FACTOR ^ (min(k, MAX_RETRY_ATTEMPTS) - 1), MAX_RETRY_DELAY)`;
this delay sequence is non-decreasing and bounded by `MAX_RETRY_DELAY`, and
`connect(force=True)` clears the pending delay so the attempt proceeds
immediately. -/
theorem backoff_policy_capped (ip : String) :
    (∀ fs : List (String × ℚ),
        (runConnectionFailures (freshClient ip) fs).retryCount
          = min fs.length MAX_RETRY_ATTEMPTS) ∧
    (∀ (fs : List (String × ℚ)) (e : String) (t : ℚ),
        (handleConnectionFailure (runConnectionFailures (freshClient ip) fs) e t).nextRetryTime
          = t + delayAfter (fs.length + 1)) ∧
    (∀ k : Nat, delayAfter k ≤ delayAfter (k + 1)) ∧
    (∀ k : Nat, delayAfter k ≤ MAX_RETRY_DELAY) ∧
    (∀ (c : ClientState) (now : ℚ), 0 ≤ now →
        connectGatePasses (connectEntry c true) now = true) := by
  have hbase : (freshClient ip).retryCount = min 0 MAX_RETRY_ATTEMPTS := by
    simp [freshClient, MAX_RETRY_ATTEMPTS]
  have hcount : ∀ fs : List (String × ℚ),
      (runConnectionFailures (freshClient ip) fs).retryCount
        = min fs.length MAX_RETRY_ATTEMPTS := by
    intro fs
    have h := (runConnectionFailures_counters fs (freshClient ip) 0 hbase rfl).1
    simpa using h
  refine ⟨hcount, ?_, ?_, ?_, ?_⟩
  · intro fs e t
    have harg : min (min fs.length MAX_RETRY_ATTEMPTS + 1) MAX_RETRY_ATTEMPTS
        = min (fs.length + 1) MAX_RETRY_ATTEMPTS := by
      simp only [MAX_RETRY_ATTEMPTS]
      omega
    simp only [handleConnectionFailure, hcount fs, harg, delayAfter]
  · intro k
    have hle : min k MAX_RETRY_ATTEMPTS - 1 ≤ min (k + 1) MAX_RETRY_ATTEMPTS - 1 := by
      simp only [MAX_RETRY_ATTEMPTS]
      omega
    refine min_le_min ?_ le_rfl
    refine mul_le_mul_of_nonneg_left ?_ (by norm_num [INITIAL_RETRY_DELAY])
    exact pow_le_pow_right₀ (by norm_num [RETRY_BACKOFF_FACTOR]) hle
  · intro k
    exact min_le_right _ _
  · intro c now h
    have hnl : ¬ (now < (0 : ℚ)) := not_lt.mpr h
    simp [connectGatePasses, connectEntry, hnl]

/-- Witness for claim C3: with a pending backoff of 100 seconds, a
`force=True` connect at time 3 passes the gate. -/
theorem backoff_policy_capped_witness :
    connectGatePasses
      (connectEntry { freshClient "10.0.0.5" with nextRetryTime := 100 } true) 3 = true :=
  (backoff_policy_capped "10.0.0.5").2.2.2.2 _ 3 (by norm_num)

/-- Counterexample for claim C3 as stated: after the 6th consecutive
failure the retry counter is 5 (capped), not 6, and the computed delay is
`81/32`, not `min(INITIAL_RETRY_DELAY * RETRY_BACKOFF_FACTOR ^ (6-1),
MAX_RETRY_DELAY) = 243/64` as the uncapped formula predicts. -/
theorem backoff_formula_counterexample :
    (runConnectionFailures (freshClient "10.0.0.5")
        (List.replicate 6 ("timeout", (0 : ℚ)))).retryCount = 5 ∧
    (runConnectionFailures (freshClient "10.0.0.5")
        (List.replicate 6 ("timeout", (0 : ℚ)))).nextRetryTime = 81/32 ∧
    min (INITIAL_RETRY_DELAY * RETRY_BACKOFF_FACTOR ^ (6 - 1)) MAX_RETRY_DELAY = 243/64 ∧
    ((81 : ℚ)/32) ≠ 243/64 := by
  refine ⟨?_, ?_, ?_, by norm_num⟩
  · norm_num [runConnectionFailures, handleConnectionFailure, freshClient, List.replicate,
      MAX_RETRY_ATTEMPTS, MAX_CONSECUTIVE_FAILURES]
  · norm_num [runConnectionFailures, handleConnectionFailure, freshClient, List.replicate,
      MAX_RETRY_ATTEMPTS, MAX_CONSECUTIVE_FAILURES, backoffDelay, INITIAL_RETRY_DELAY,
      RETRY_BACKOFF_FACTOR, MAX_RETRY_DELAY]
  · norm_num [INITIAL_RETRY_DELAY, RETRY_BACKOFF_FACTOR, MAX_RETRY_DELAY]

/-! ## Claim C4: availability hysteresis -/

/-- Claim C4: starting from an available device with a clean failure
counter, a run of consecutive communication or connection failures leaves
the device available exactly while the failure count stays below
`MAX_CONSECUTIVE_FAILURES` (3); availability flips to false exactly when
the counter reaches the threshold. -/
theorem availability_hysteresis (c : ClientState) (fs : List (String × ℚ))
    (hav : c.available = true) (hcf : c.consecutiveFailures = 0) :
    ((runCommunicationFailures c fs).available
        = decide (fs.length < MAX_CONSECUTIVE_FAILURES)) ∧
    ((runConnectionFailures c fs).available
        = decide (fs.length < MAX_CONSECUTIVE_FAILURES)) := by
  have hav' : c.available = decide (0 < MAX_CONSECUTIVE_FAILURES) := by
    rw [hav]; decide
  have h := available_after_failures fs c 0 hcf hav'
  simpa using h

/-- Witness for claim C4: two consecutive failures (fewer than the
threshold of 3) leave the device available even though the most recent
attempt failed. -/
theorem availability_hysteresis_witness :
    (runCommunicationFailures { freshClient "10.0.0.5" with available := true }
        [("err1", (0 : ℚ)), ("err2", 1)]).available = true := by
  have h := availability_hysteresis { freshClient "10.0.0.5" with available := true }
      [("err1", (0 : ℚ)), ("err2", 1)] rfl rfl
  exact h.1.trans (by decide)

/-! ## Claim C1: correlation matching -/

/-- Claim C1 (amended): `_parse_json_lines` matches by substring
containment of the request's `sn` in the line text, not by equality of
the parsed `sn` field.  Any returned response comes from a line whose
text contains the target `sn`, and the scan visits all lines: a matching
response is found even when earlier lines are junk or valid responses
whose text does not contain the target.  In particular, when the target
`sn` occurs in no other line (as in the A/B interleaving scenario), the
wait returns exactly that response's payload. -/
theorem correlation_by_substring (t : String) :
    (∀ (lines : List BufLine) (r : WireResp),
        parseJsonLines lines t = some r → strContainsSub (lineText r) t = true) ∧
    (∀ (pre : List BufLine) (r : WireResp) (post : List BufLine),
        (∀ r', BufLine.valid r' ∈ pre → strContainsSub (lineText r') t = false) →
        strContainsSub (lineText r) t = true →
        strStrip (lineText r) ≠ "" →
        parseJsonLines (pre ++ BufLine.valid r :: post) t = some r) := by
  constructor
  · intro lines
    induction lines with
    | nil => intro r h; simp [parseJsonLines] at h
    | cons l rest ih =>
        intro r h
        simp only [parseJsonLines] at h
        split at h
        · exact ih r h
        · split at h
          · exact ih r h
          · rename_i hcond
            cases l with
            | valid r0 =>
                have h3 : r0 = r := Option.some.inj h
                subst h3
                simp only [BufLine.text] at hcond
                cases hb : strContainsSub (lineText r0) t with
                | false => exact absurd (by rw [hb]; rfl) hcond
                | true => rfl
            | junk s => exact ih r h
  · intro pre
    induction pre with
    | nil =>
        intro r post hpre hmatch htrim
        simp only [List.nil_append, parseJsonLines, BufLine.text]
        rw [if_neg htrim, if_neg (by rw [hmatch]; exact nofun)]
    | cons l pre' ih =>
        intro r post hpre hmatch htrim
        have hrec := ih r post (fun r' hr' => hpre r' (List.mem_cons_of_mem _ hr'))
          hmatch htrim
        cases l with
        | junk s =>
            simp only [List.cons_append, parseJsonLines]
            split
            · exact hrec
            · split
              · exact hrec
              · exact hrec
        | valid r' =>
            have hnc : strContainsSub (lineText r') t = false :=
              hpre r' (List.mem_cons_self _ _)
            simp only [List.cons_append, parseJsonLines, BufLine.text]
            split
            · exact hrec
            · rw [if_pos (by rw [hnc]; rfl)]
              exact hrec

/-- Witness for claim C1: with responses for `"B"` and `"A"` interleaved
behind a junk line, the wait for `"A"` scans past the junk and the B line
and returns exactly the A payload. -/
theorem correlation_by_substring_witness :
    parseJsonLines [BufLine.junk "noise", BufLine.valid respB, BufLine.valid respA] "A"
      = some respA := by
  refine (correlation_by_substring "A").2 [BufLine.junk "noise", BufLine.valid respB]
    respA [] ?_ (by decide) (by decide)
  intro r' hr'
  simp only [List.mem_cons, List.not_mem_nil, or_false] at hr'
  rcases hr' with h | h
  · exact absurd h (by simp)
  · cases h
    decide

/-- Counterexample for claim C1 as stated: waiting for `sn="12"` on a
buffer holding responses for `sn="123"` and `sn="12"` returns the `"123"`
payload, because `"12"` occurs as a substring of the `"123"` line; the
returned message's `sn` field differs from the request's `sn`. -/
theorem correlation_field_counterexample :
    parseJsonLines [BufLine.valid resp123, BufLine.valid resp12] "12" = some resp123 ∧
    resp123.sn ≠ "12" ∧ resp12.sn = "12" ∧ resp123 ≠ resp12 := by
  decide

/-! ## Claim C6: success bookkeeping -/

/-- Claim C6 (amended): a successful correlated receive (a matched
response carrying `data` in `_send_receiver_internal`) resets both the
retry counter and the consecutive-failure counter and refreshes both the
last-successful-communication and last-activity timestamps; but a
successful fire-and-forget send — `control` in persistent mode,
non-persistent `control` whose acknowledgment read times out, or
`_only_send` — refreshes only the last-activity timestamp and leaves the
counters and the last-success timestamp untouched. -/
theorem success_reset_discipline (c : ClientState) (r : WireResp)
    (d : List (String × Int)) (now : ℚ) (sn e : String) :
    (r.data = some d →
        (handleResponsePayload c r now).1 = some d ∧
        (handleResponsePayload c r now).2.retryCount = 0 ∧
        (handleResponsePayload c r now).2.consecutiveFailures = 0 ∧
        (handleResponsePayload c r now).2.lastSuccessfulCommunication = now ∧
        (handleResponsePayload c r now).2.lastActivity = now ∧
        (handleResponsePayload c r now).2.available = true) ∧
    (c.receiveLoopActive = true → ∀ ack : ReadOutcome,
        controlAfterSend c sn ack now = (true, { c with lastActivity := now })) ∧
    (c.receiveLoopActive = false →
        controlAfterSend c sn .timeout now = (true, { c with lastActivity := now })) ∧
    (onlySendResult c true e now = { c with lastActivity := now }) := by
  refine ⟨?_, ?_, ?_, by simp [onlySendResult]⟩
  · intro h
    cases hattr : r.attr with
    | none => simp [handleResponsePayload, h, hattr, markCommunicationSuccess]
    | some a =>
        by_cases hdp : c.info.dpid = [] <;>
          simp [handleResponsePayload, h, hattr, markCommunicationSuccess, captureAttr, hdp]
  · intro h ack
    simp [controlAfterSend, h]
  · intro h
    simp [controlAfterSend, h]

/-- Witness for claim C6: a matched query response with data resets the
consecutive-failure counter. -/
theorem success_reset_discipline_witness :
    (handleResponsePayload persistentClientExample
        { sn := "77", cmd := 2, attr := some [1, 4], data := some [("1", 255)] }
        9).2.consecutiveFailures = 0 := by
  have h := success_reset_discipline persistentClientExample
      { sn := "77", cmd := 2, attr := some [1, 4], data := some [("1", 255)] }
      [("1", 255)] 9 "77" "e"
  exact (h.1 rfl).2.2.1

/-- Counterexample for claim C6 as stated: a successful `control` send in
persistent mode returns success but resets neither counter and does not
refresh the last-successful-communication timestamp. -/
theorem control_success_no_reset_counterexample :
    (controlAfterSend persistentClientExample "123" .timeout 7).1 = true ∧
    (controlAfterSend persistentClientExample "123" .timeout 7).2.consecutiveFailures = 2 ∧
    (controlAfterSend persistentClientExample "123" .timeout 7).2.retryCount = 2 ∧
    (controlAfterSend persistentClientExample "123" .timeout 7).2.lastSuccessfulCommunication
      = 0 ∧
    (0 : ℚ) ≠ 7 := by
  refine ⟨rfl, rfl, rfl, rfl, by norm_num⟩

/-! ## Claim C7: dpid discipline -/

/-- `find?` returns `none` when no model record matches the pid. -/
theorem findPidModel_eq_none (p : String) (pidList : List PidItem)
    (h : ∀ item ∈ pidList, ∀ mdl ∈ item.m, mdl.pid ≠ p) :
    findPidModel p pidList = none := by
  induction pidList with
  | nil => rfl
  | cons item rest ih =>
      have hfind : item.m.find? (fun mdl => mdl.pid = p) = none := by
        rw [List.find?_eq_none]
        intro mdl hm
        simpa using h item (List.mem_cons_self _ _) mdl hm
      simp only [findPidModel, hfind]
      exact ih (fun it hit => h it (List.mem_cons_of_mem _ hit))

/-- Claim C7 (amended): the query-path inference (`attr` capture in
`_send_receiver_internal`) populates `dpid` only when it is empty and
never alters a non-empty `dpid`; the handshake's metadata lookup leaves
`dpid` unchanged when the response has no `pid` or no model record
matches it — but when a model does match, `_device_info` overwrites
`dpid` unconditionally (see the counterexample), so the
"never cleared or replaced" reading fails. -/
theorem dpid_inference_discipline (c : ClientState) (attr : List Int)
    (info : DeviceInfoData) (did name dtp : Option String) (p : String)
    (pidList : List PidItem) :
    (c.info.dpid ≠ [] → captureAttr c attr = c) ∧
    (c.info.dpid = [] →
        (captureAttr c attr).info.dpid = attr.map (fun x => toString x)) ∧
    ((∀ item ∈ pidList, ∀ mdl ∈ item.m, mdl.pid ≠ p) →
        (deviceInfoApply info did name dtp (some p) pidList).dpid = info.dpid) ∧
    ((deviceInfoApply info did name dtp none pidList).dpid = info.dpid) := by
  refine ⟨?_, ?_, ?_, ?_⟩
  · intro h
    simp [captureAttr, h]
  · intro h
    simp [captureAttr, h]
  · intro h
    have hfind := findPidModel_eq_none p pidList h
    cases did with
    | none => rfl
    | some dv =>
        cases dtp with
        | none =>
            simp only [deviceInfoApply, hfind]
            split_ifs <;> rfl
        | some tv =>
            simp only [deviceInfoApply, hfind]
            split_ifs <;> rfl
  · cases did with
    | none => rfl
    | some dv =>
        cases dtp with
        | none =>
            simp only [deviceInfoApply]
            split_ifs <;> rfl
        | some tv =>
            simp only [deviceInfoApply]
            split_ifs <;> rfl

/-- Witness for claim C7: the attr capture leaves a populated dpid
untouched. -/
theorem dpid_inference_discipline_witness :
    captureAttr clientWithDpid [9, 9] = clientWithDpid :=
  (dpid_inference_discipline clientWithDpid [9, 9] {} none none none "p" []).1
    (by decide)

/-- Counterexample for claim C7 as stated: a handshake whose pid matches a
metadata model with an empty dpid list clears an already-populated dpid
list. -/
theorem dpid_overwrite_counterexample :
    (deviceInfoApply { dpid := ["1"] } (some "dev1") (some "lamp") none (some "p1")
        [{ c := "01", m := [{ pid := "p1", i := "ic", n := "md", dpid := [] }] }]).dpid
      = [] ∧
    ({ dpid := ["1"] } : DeviceInfoData).dpid ≠ [] := by
  decide

/-! ## Claim C8: control result discipline -/

/-- Claim C8: when the persistent receive loop owns the socket, `control`
returns success after the write without waiting (the read outcome is
irrelevant); otherwise it waits for an acknowledgment and returns success
on a read timeout or on any non-empty read, and failure on an empty read
or a hard I/O error. -/
theorem control_result_discipline (c : ClientState) (sn : String) (now : ℚ)
    (e : String) (lines : List BufLine) :
    (c.receiveLoopActive = true → ∀ ack : ReadOutcome,
        controlAfterSend c sn ack now = (true, { c with lastActivity := now })) ∧
    (c.receiveLoopActive = false →
        (controlAfterSend c sn .timeout now).1 = true ∧
        (controlAfterSend c sn .empty now).1 = false ∧
        (controlAfterSend c sn (.ioError e) now).1 = false ∧
        (controlAfterSend c sn (.data lines) now).1 = true) := by
  constructor
  · intro h ack
    simp [controlAfterSend, h]
  · intro h
    refine ⟨by simp [controlAfterSend, h], by simp [controlAfterSend, h],
      by simp [controlAfterSend, h], ?_⟩
    simp only [controlAfterSend, h]
    cases parseJsonLines lines sn <;> simp

/-- Witness for claim C8: without a receive loop, a read timeout still
yields success (probable success), while an I/O error yields failure. -/
theorem control_result_discipline_witness :
    (controlAfterSend { freshClient "10.0.0.5" with connected := true } "9"
        .timeout 2).1 = true ∧
    (controlAfterSend { freshClient "10.0.0.5" with connected := true } "9"
        (.ioError "broken pipe") 2).1 = false := by
  have h := control_result_discipline { freshClient "10.0.0.5" with connected := true }
      "9" 2 "broken pipe" []
  exact ⟨(h.2 rfl).1, (h.2 rfl).2.2.1⟩

/-! ## Claim C9: idempotent shutdown -/

/-- `stop_persistent_connection` applied twice equals applying it once. -/
theorem stopPersistentConnection_idem (c : ClientState) :
    stopPersistentConnection (stopPersistentConnection c) = stopPersistentConnection c := by
  cases c
  rfl

/-- Claim C9 (amended): `disconnect()` and the stop operations are
idempotent and error-free — a second call leaves the state unchanged.
`stop_persistent_connection` (and hence the registry's stop, which stops
every client) leaves the device state `offline` with the socket closed;
`disconnect()` leaves the socket closed and the counters reset but does
not modify the device-state field. -/
theorem idempotent_shutdown (c : ClientState) :
    disconnectClient (disconnectClient c) = disconnectClient c ∧
    (disconnectClient c).connected = false ∧
    (disconnectClient c).retryCount = 0 ∧
    (disconnectClient c).consecutiveFailures = 0 ∧
    (disconnectClient c).nextRetryTime = 0 ∧
    (disconnectClient c).deviceState = c.deviceState ∧
    stopPersistentConnection (stopPersistentConnection c) = stopPersistentConnection c ∧
    (stopPersistentConnection c).deviceState = DEVICE_STATE_OFFLINE ∧
    (stopPersistentConnection c).connected = false ∧
    (∀ s : RegState, coordinatorStop (coordinatorStop s) = coordinatorStop s) := by
  refine ⟨by cases c; rfl, rfl, rfl, rfl, rfl, rfl, stopPersistentConnection_idem c,
    rfl, rfl, ?_⟩
  intro s
  cases s with
  | mk devices ipToDevice clients running =>
      simp only [coordinatorStop, List.map_map]
      refine congrArg (fun l => RegState.mk devices ipToDevice l false) ?_
      apply List.map_congr_left
      intro p _
      show (p.1, stopPersistentConnection (stopPersistentConnection p.2))
          = (p.1, stopPersistentConnection p.2)
      rw [stopPersistentConnection_idem]

/-- Counterexample for claim C9 as stated: `disconnect()` on an online
client closes the socket but leaves the device-state field `online`, not
`offline`. -/
theorem disconnect_leaves_state_counterexample :
    (disconnectClient
        { freshClient "10.0.0.5" with
          connected := true
          deviceState := DEVICE_STATE_ONLINE }).deviceState = DEVICE_STATE_ONLINE ∧
    (disconnectClient
        { freshClient "10.0.0.5" with
          connected := true
          deviceState := DEVICE_STATE_ONLINE }).connected = false ∧
    DEVICE_STATE_ONLINE ≠ DEVICE_STATE_OFFLINE := by
  refine ⟨rfl, rfl, by decide⟩

/-! ## Claim C10: cached state is returned by copy -/

theorem mem_keysA_of_lookupA {α β : Type} [DecidableEq α] (l : List (α × β)) (k : α)
    (v : β) (h : lookupA l k = some v) : k ∈ keysA l := by
  induction l with
  | nil => simp [lookupA] at h
  | cons p rest ih =>
      obtain ⟨k', v'⟩ := p
      rw [keysA_cons, List.mem_cons]
      by_cases hk : k' = k
      · exact Or.inl hk.symm
      · rw [lookupA, if_neg hk] at h
        exact Or.inr (ih h)

/-- Claim C10: with the receive loop active and a non-empty cache,
`query()` returns a fresh copy of the cached state (a new reference), as
does the `last_state` property; mutating the returned dictionary leaves
the client's cached dictionary unchanged. -/
theorem query_returns_fresh_copy (h : DictHeap) (lastRef : Nat)
    (d : List (String × Int)) (hwf : ∀ k ∈ keysA h.store, k < h.next)
    (hd : lookupA h.store lastRef = some d) (hne : d ≠ []) :
    queryCachedPath h lastRef true = some (allocDict h d) ∧
    (allocDict h d).2 ≠ lastRef ∧
    lookupA (allocDict h d).1.store (allocDict h d).2 = some d ∧
    lookupA (allocDict h d).1.store lastRef = some d ∧
    (∀ (k : String) (v : Int),
        lookupA (dictSet (allocDict h d).1 (allocDict h d).2 k v).store lastRef
          = some d) ∧
    lastStateProp h lastRef = allocDict h d := by
  have hlt : lastRef < h.next := hwf lastRef (mem_keysA_of_lookupA h.store lastRef d hd)
  have hnext : lastRef ≠ h.next := Nat.ne_of_lt hlt
  refine ⟨?_, fun e => hnext e.symm, ?_, ?_, ?_, ?_⟩
  · simp [queryCachedPath, hd, hne]
  · exact lookupA_insertA_self h.store h.next d
  · exact (lookupA_insertA_ne h.store h.next lastRef d hnext).trans hd
  · intro k v
    have hstore : lookupA (allocDict h d).1.store (allocDict h d).2 = some d :=
      lookupA_insertA_self h.store h.next d
    simp only [dictSet, hstore]
    have h1 : lookupA (insertA (allocDict h d).1.store h.next (insertA d k v)) lastRef
        = lookupA (allocDict h d).1.store lastRef :=
      lookupA_insertA_ne _ h.next lastRef _ hnext
    exact h1.trans ((lookupA_insertA_ne h.store h.next lastRef d hnext).trans hd)
  · simp [lastStateProp, hd]

/-- Witness for claim C10: a one-entry heap whose cache holds
`[("1", 255)]` yields a fresh copy at reference 1, and the cache behind
reference 0 is untouched. -/
theorem query_returns_fresh_copy_witness :
    queryCachedPath { store := [(0, [("1", 255)])], next := 1 } 0 true
      = some (allocDict { store := [(0, [("1", 255)])], next := 1 } [("1", 255)]) := by
  have hp := query_returns_fresh_copy { store := [(0, [("1", 255)])], next := 1 } 0
      [("1", 255)]
      (by intro k hk; rw [keysA_cons, keysA_nil, List.mem_singleton] at hk; subst hk; decide)
      rfl (by decide)
  exact hp.1

/-! ## Claim C2: registry invariant preservation -/

/-- The shared map-update shape of the IP-move paths and of
`add_device`'s moved-device branch preserves the registry invariant. -/
theorem regInv_update_move (s : RegState) (did ip : String) (entry e' : EntryM)
    (cls : List (Nat × ClientState))
    (hinv : RegInv s) (hentry : lookupA s.devices did = some entry)
    (hip : e'.ip = ip) :
    RegInv
      { s with
        devices := insertA s.devices did e'
        ipToDevice := insertA (eraseA s.ipToDevice entry.ip) ip did
        clients := cls } := by
  obtain ⟨hnd, hni, hcons⟩ := hinv
  refine ⟨keysA_insertA_nodup _ _ _ hnd,
    keysA_insertA_nodup _ _ _ (keysA_eraseA_nodup _ _ hni), ?_⟩
  intro ip0 did0 h0
  by_cases hip0 : ip0 = ip
  · subst hip0
    rw [lookupA_insertA_self] at h0
    cases h0
    exact ⟨e', lookupA_insertA_self _ _ _, hip⟩
  · rw [lookupA_insertA_ne _ _ _ _ hip0] at h0
    by_cases hold : ip0 = entry.ip
    · subst hold
      rw [lookupA_eraseA_self _ _ hni] at h0
      cases h0
    · rw [lookupA_eraseA_ne _ _ _ hold] at h0
      obtain ⟨e0, he0, he0ip⟩ := hcons ip0 did0 h0
      by_cases hdid0 : did0 = did
      · subst hdid0
        rw [hentry] at he0
        cases he0
        exact absurd he0ip.symm hold
      · exact ⟨e0, by rw [lookupA_insertA_ne _ _ _ _ hdid0]; exact he0, he0ip⟩

/-- Registering a new identity preserves the registry invariant (even
when the IP was previously claimed: the dict write overwrites it). -/
theorem regInv_update_new (s : RegState) (did : String) (entry : EntryM)
    (cls : List (Nat × ClientState))
    (hinv : RegInv s) (hnew : lookupA s.devices did = none) :
    RegInv
      { s with
        devices := insertA s.devices did entry
        ipToDevice := insertA s.ipToDevice entry.ip did
        clients := cls } := by
  obtain ⟨hnd, hni, hcons⟩ := hinv
  refine ⟨keysA_insertA_nodup _ _ _ hnd, keysA_insertA_nodup _ _ _ hni, ?_⟩
  intro ip0 did0 h0
  by_cases hip0 : ip0 = entry.ip
  · subst hip0
    rw [lookupA_insertA_self] at h0
    cases h0
    exact ⟨entry, lookupA_insertA_self _ _ _, rfl⟩
  · rw [lookupA_insertA_ne _ _ _ _ hip0] at h0
    obtain ⟨e0, he0, he0ip⟩ := hcons ip0 did0 h0
    by_cases hdid0 : did0 = did
    · subst hdid0
      rw [hnew] at he0
      cases he0
    · exact ⟨e0, by rw [lookupA_insertA_ne _ _ _ _ hdid0]; exact he0, he0ip⟩

/-- Removing a device preserves the registry invariant. -/
theorem regInv_update_remove (s : RegState) (did : String) (entry : EntryM)
    (cls : List (Nat × ClientState))
    (hinv : RegInv s) (hentry : lookupA s.devices did = some entry) :
    RegInv
      { s with
        devices := eraseA s.devices did
        ipToDevice := eraseA s.ipToDevice entry.ip
        clients := cls } := by
  obtain ⟨hnd, hni, hcons⟩ := hinv
  refine ⟨keysA_eraseA_nodup _ _ hnd, keysA_eraseA_nodup _ _ hni, ?_⟩
  intro ip0 did0 h0
  by_cases hip0 : ip0 = entry.ip
  · subst hip0
    rw [lookupA_eraseA_self _ _ hni] at h0
    cases h0
  · rw [lookupA_eraseA_ne _ _ _ hip0] at h0
    obtain ⟨e0, he0, he0ip⟩ := hcons ip0 did0 h0
    by_cases hdid0 : did0 = did
    · subst hdid0
      rw [hentry] at he0
      cases he0
      exact absurd he0ip.symm hip0
    · exact ⟨e0, by rw [lookupA_eraseA_ne _ _ _ hdid0]; exact he0, he0ip⟩

/-- Every single registry operation preserves the invariant. -/
theorem regInv_applyRegOp (s : RegState) (op : RegOp) (h : RegInv s) :
    RegInv (applyRegOp s op) := by
  cases op with
  | add hdl =>
      simp only [applyRegOp, addDevice]
      cases hcl : lookupA s.clients hdl with
      | none => exact h
      | some cl =>
          simp only
          split
          · exact h
          · cases hdev : lookupA s.devices cl.info.device_id with
            | some entry =>
                simp only [hdev]
                split
                · exact regInv_update_move s cl.info.device_id cl.ip entry
                    { entry with ip := cl.ip } _ h hdev rfl
                · exact h
            | none =>
                simp only [hdev]
                exact regInv_update_new s cl.info.device_id
                  { device_id := cl.info.device_id, ip := cl.ip, client := hdl,
                    device_type := cl.info.device_type_code, offlineSince := none,
                    lastRediscoveryAttempt := 0 } _ h hdev
  | remove did =>
      simp only [applyRegOp, removeDevice]
      cases hdev : lookupA s.devices did with
      | none => exact h
      | some entry =>
          simp only
          exact regInv_update_remove s did entry _ h hdev
  | move did ip tempH =>
      simp only [applyRegOp, checkNewIpsMove]
      cases hdev : lookupA s.devices did with
      | none => exact h
      | some entry =>
          simp only
          exact regInv_update_move s did ip entry { entry with ip := ip } _ h hdev rfl
  | rediscover did ip tempH =>
      simp only [applyRegOp, rediscoverDeviceFound]
      cases hdev : lookupA s.devices did with
      | none => exact h
      | some entry =>
          simp only
          exact regInv_update_move s did ip entry
            { entry with ip := ip, offlineSince := none } _ h hdev rfl

/-- Any sequence of registry operations preserves the invariant. -/
theorem regInv_applyRegOps (s : RegState) (ops : List RegOp) (h : RegInv s) :
    RegInv (applyRegOps s ops) := by
  induction ops generalizing s with
  | nil => exact h
  | cons op rest ih => exact ih (applyRegOp s op) (regInv_applyRegOp s op h)

/-- Claim C2: after any sequence of `add_device`, `remove_device` and
IP-move (re-discovery) operations, the identity registry has at most one
entry per identity (I1), the IP map has at most one identity per IP (I2),
every IP mapping points to a live entry whose IP field agrees (no IP is
left mapped to a stale identity), and no identity is reachable under two
IPs. -/
theorem registry_uniqueness (s : RegState) (ops : List RegOp) (hinv : RegInv s) :
    (keysA (applyRegOps s ops).devices).Nodup ∧
    (keysA (applyRegOps s ops).ipToDevice).Nodup ∧
    (∀ ip did, lookupA (applyRegOps s ops).ipToDevice ip = some did →
        ∃ e, lookupA (applyRegOps s ops).devices did = some e ∧ e.ip = ip) ∧
    (∀ ip1 ip2 did, lookupA (applyRegOps s ops).ipToDevice ip1 = some did →
        lookupA (applyRegOps s ops).ipToDevice ip2 = some did → ip1 = ip2) := by
  obtain ⟨h1, h2, h3⟩ := regInv_applyRegOps s ops hinv
  refine ⟨h1, h2, h3, ?_⟩
  intro ip1 ip2 did h01 h02
  obtain ⟨e1, he1, hip1⟩ := h3 ip1 did h01
  obtain ⟨e2, he2, hip2⟩ := h3 ip2 did h02
  rw [he1] at he2
  cases he2
  rw [← hip1, ← hip2]

/-- Witness for claim C2: registering `dev1`, moving it to a new IP and
removing it from an initially empty registry keeps the maps well-formed. -/
theorem registry_uniqueness_witness :
    (keysA (applyRegOps regExampleStart
        [RegOp.add 0, RegOp.move "dev1" "10.0.0.9" 1, RegOp.remove "dev1"]).devices).Nodup :=
  (registry_uniqueness regExampleStart
    [RegOp.add 0, RegOp.move "dev1" "10.0.0.9" 1, RegOp.remove "dev1"]
    ⟨List.nodup_nil, List.nodup_nil, fun ip did h => by simp [lookupA] at h⟩).1

/-! ## Claim C5: IP-move preserves identity and the client object -/

/-- Claim C5: when either re-discovery path (the periodic
`_check_new_ips` branch or the targeted `_rediscover_device` branch)
finds the already-known identity `did` at a free IP `newIp` via a
temporary probing client, then afterwards the old IP is no longer in the
IP map, the new IP maps to the same identity, the entry's IP field is the
new IP while its `client` handle is unchanged (the pre-existing client
object is reused, not replaced), that pre-existing client is re-pointed
at the new IP with its connection reset for reconnection, and the
temporary probing client is disconnected and not installed anywhere; the
targeted path additionally clears the offline bookkeeping. -/
theorem ip_move_preserves_identity (s : RegState) (did newIp : String)
    (entry : EntryM) (cl tempCl : ClientState) (tempH : Nat)
    (hinv : RegInv s)
    (hentry : lookupA s.devices did = some entry)
    (hmap : lookupA s.ipToDevice entry.ip = some did)
    (hfree : lookupA s.ipToDevice newIp = none)
    (hcl : lookupA s.clients entry.client = some cl)
    (htemp : lookupA s.clients tempH = some tempCl)
    (hth : tempH ≠ entry.client) :
    (lookupA (checkNewIpsMove s did newIp tempH).ipToDevice entry.ip = none) ∧
    (lookupA (checkNewIpsMove s did newIp tempH).ipToDevice newIp = some did) ∧
    (lookupA (checkNewIpsMove s did newIp tempH).devices did
        = some { entry with ip := newIp }) ∧
    (({ entry with ip := newIp } : EntryM).client = entry.client) ∧
    (lookupA (checkNewIpsMove s did newIp tempH).clients entry.client
        = some (reconnectWithNewIp cl newIp)) ∧
    ((reconnectWithNewIp cl newIp).ip = newIp) ∧
    ((reconnectWithNewIp cl newIp).connected = false) ∧
    (lookupA (checkNewIpsMove s did newIp tempH).clients tempH
        = some (disconnectClient tempCl)) ∧
    ((disconnectClient tempCl).connected = false) ∧
    (lookupA (rediscoverDeviceFound s did newIp tempH).ipToDevice entry.ip = none) ∧
    (lookupA (rediscoverDeviceFound s did newIp tempH).ipToDevice newIp = some did) ∧
    (lookupA (rediscoverDeviceFound s did newIp tempH).devices did
        = some { entry with ip := newIp, offlineSince := none }) := by
  obtain ⟨hnd, hni, hcons⟩ := hinv
  have hne : newIp ≠ entry.ip := by
    intro e
    rw [e, hmap] at hfree
    cases hfree
  have hmapOld : ∀ ip2dev' : List (String × String),
      ip2dev' = insertA (eraseA s.ipToDevice entry.ip) newIp did →
      lookupA ip2dev' entry.ip = none := by
    intro ip2dev' he
    rw [he, lookupA_insertA_ne _ _ _ _ (Ne.symm hne)]
    exact lookupA_eraseA_self _ _ hni
  have hinner : lookupA (mapClient s.clients entry.client
      (fun c => reconnectWithNewIp c newIp)) tempH = some tempCl := by
    rw [lookupA_mapClient_ne _ _ _ _ hth]
    exact htemp
  have hclients : lookupA
      (mapClient (mapClient s.clients entry.client (fun c => reconnectWithNewIp c newIp))
        tempH disconnectClient) entry.client = some (reconnectWithNewIp cl newIp) := by
    rw [lookupA_mapClient_ne _ _ _ _ (Ne.symm hth)]
    exact lookupA_mapClient_self _ _ _ cl hcl
  have hclients2 : lookupA
      (mapClient (mapClient s.clients entry.client (fun c => reconnectWithNewIp c newIp))
        tempH disconnectClient) tempH = some (disconnectClient tempCl) :=
    lookupA_mapClient_self _ _ _ tempCl hinner
  have hrec : (reconnectWithNewIp cl newIp).ip = newIp := by
    by_cases h : newIp = cl.ip
    · simp [reconnectWithNewIp, connectEntry, closeConnection, updateIp, h]
    · simp [reconnectWithNewIp, connectEntry, closeConnection, updateIp, h]
  refine ⟨?_, ?_, ?_, rfl, ?_, hrec, ?_, ?_, rfl, ?_, ?_, ?_⟩
  · simp only [checkNewIpsMove, hentry]
    exact hmapOld _ rfl
  · simp only [checkNewIpsMove, hentry]
    exact lookupA_insertA_self _ _ _
  · simp only [checkNewIpsMove, hentry]
    exact lookupA_insertA_self _ _ _
  · simp only [checkNewIpsMove, hentry]
    exact hclients
  · by_cases h : newIp = cl.ip
    · simp [reconnectWithNewIp, connectEntry, closeConnection, updateIp, h]
    · simp [reconnectWithNewIp, connectEntry, closeConnection, updateIp, h]
  · simp only [checkNewIpsMove, hentry]
    exact hclients2
  · simp only [rediscoverDeviceFound, hentry]
    exact hmapOld _ rfl
  · simp only [rediscoverDeviceFound, hentry]
    exact lookupA_insertA_self _ _ _
  · simp only [rediscoverDeviceFound, hentry]
    exact lookupA_insertA_self _ _ _

/-- Witness for claim C5: moving `dev1` from `10.0.0.5` to `10.0.0.9`
re-maps the new IP to the same identity. -/
theorem ip_move_preserves_identity_witness :
    lookupA (checkNewIpsMove regMoveExample "dev1" "10.0.0.9" 1).ipToDevice "10.0.0.9"
      = some "dev1" := by
  have hinv : RegInv regMoveExample := by
    refine ⟨by decide, by decide, ?_⟩
    intro ip did h
    simp only [regMoveExample, lookupA] at h
    split at h
    · rename_i heq
      cases h
      exact ⟨entryDev1, by decide, by rw [← heq]; decide⟩
    · cases h
  have h := ip_move_preserves_identity regMoveExample "dev1" "10.0.0.9" entryDev1
      clientDev1 tempProbeClient 1 hinv (by decide) (by decide) (by decide)
      (by decide) (by decide) (by decide)
  exact h.2.1

end CozyLife
